import Mathlib

/-
  Verification of the ReactRecognize mobile client (src/atmobile/App.js and
  src/unnamed/part_000, two near-identical revisions of the same application,
  differing only in the configured base URL).

  The embedding models the session/request orchestration layer:
  AuthService storage, the ApiService request builders and their
  success/failure handling, the screen-level handlers for check-in,
  check-out and registration, and the paginated history screen.

  Asynchronous JS is modelled by explicit state passing: each run function
  takes the ambient session store and the HTTP response the server would
  return, and produces the outcome, the list of HTTP requests issued, and
  the session store afterwards.
-/

namespace ReactRecognize

/-- The persisted session store backed by AsyncStorage: the two keys
written by AuthService.login and removed by AuthService.logout.
AsyncStorage.getItem returns null for a missing key, modelled as none. -/
structure SessionStore where
  token : Option String
  user : Option String
deriving DecidableEq

/-- JS template-literal interpolation of a possibly-null string:
null interpolates as the literal text null. -/
def jsInterp : Option String → String
  | some s => s
  | none => "null"

/-- The Authorization header value produced by the source pattern
Bearer followed by the interpolated token. -/
def bearerValue (t : Option String) : String :=
  "Bearer " ++ jsInterp t

/-- One entry of a FormData body: either a text field appended as
formData.append(field, value), or a file part appended as
formData.append(field, { uri, type, name }). -/
inductive FormPart where
  | textField (field : String) (value : String)
  | filePart (field : String) (uri : String) (mime : String) (filename : String)
deriving DecidableEq

/-- Body of an outgoing request: absent (GET), a serialized JSON payload,
or a multipart FormData body. -/
inductive RequestBody where
  | empty
  | json (payload : String)
  | multipart (parts : List FormPart)
deriving DecidableEq

/-- An HTTP request as assembled by the fetch calls in ApiService:
url, method, optional Authorization header, optional manually set
Content-Type header, and body. -/
structure HttpRequest where
  url : String
  method : String
  authHeader : Option String
  contentType : Option String
  body : RequestBody
deriving DecidableEq

/-- The part of a fetch response the source inspects: response.ok,
response.status, and the detail field of the parsed JSON body when
present. -/
structure HttpResponse where
  ok : Bool
  status : Nat
  detail : Option String
deriving DecidableEq

/-- The JS expression data.detail or-else fallback: the fallback is used
when detail is absent or empty (empty strings are falsy in JS). -/
def jsOrDetail (d : Option String) (fallback : String) : String :=
  match d with
  | some s => if s = "" then fallback else s
  | none => fallback

/-- The configured base URL (API_URL in src/atmobile/App.js; the
src/unnamed/part_000 revision differs only in this constant). -/
def apiUrl : String := "https://attappv2.duckdns.org"

/-- The FormData body built identically by ApiService.checkIn and
ApiService.checkOut: latitude and longitude text fields, then either a
face_image_base64 text field when the image reference starts with the
data-URI marker, or a face_image file part (face.jpg, image/jpeg)
otherwise. -/
def attendanceForm (latitude longitude imageUri : String) : List FormPart :=
  [FormPart.textField "latitude" latitude,
   FormPart.textField "longitude" longitude] ++
  (if imageUri.startsWith "data:image/" then
    [FormPart.textField "face_image_base64" imageUri]
  else
    [FormPart.filePart "face_image" imageUri "image/jpeg" "face.jpg"])

/-- The employee fields passed to ApiService.registerEmployee. -/
structure EmployeeData where
  employee_id : String
  name : String
  email : String
  password : String
  role : String
deriving DecidableEq

/-- The FormData body built by ApiService.registerEmployee: the five
employee text fields, then the same image branch as the attendance
calls. -/
def registerForm (e : EmployeeData) (imageUri : String) : List FormPart :=
  [FormPart.textField "employee_id" e.employee_id,
   FormPart.textField "name" e.name,
   FormPart.textField "email" e.email,
   FormPart.textField "password" e.password,
   FormPart.textField "role" e.role] ++
  (if imageUri.startsWith "data:image/" then
    [FormPart.textField "face_image_base64" imageUri]
  else
    [FormPart.filePart "face_image" imageUri "image/jpeg" "face.jpg"])

/-- The request sent by ApiService.checkIn: POST to the check-in
endpoint, Authorization header always set from the stored token, no
manual Content-Type, multipart body. -/
def checkInRequest (store : SessionStore) (latitude longitude imageUri : String) :
    HttpRequest :=
  ⟨apiUrl ++ "/api/attendance/check-in", "POST",
   some (bearerValue store.token), none,
   RequestBody.multipart (attendanceForm latitude longitude imageUri)⟩

/-- The request sent by ApiService.checkOut. -/
def checkOutRequest (store : SessionStore) (latitude longitude imageUri : String) :
    HttpRequest :=
  ⟨apiUrl ++ "/api/attendance/check-out", "POST",
   some (bearerValue store.token), none,
   RequestBody.multipart (attendanceForm latitude longitude imageUri)⟩

/-- The request sent by ApiService.getStatus. -/
def getStatusRequest (store : SessionStore) : HttpRequest :=
  ⟨apiUrl ++ "/api/employee/status", "GET",
   some (bearerValue store.token), none, RequestBody.empty⟩

/-- The request sent by ApiService.getMyAttendance. -/
def getMyAttendanceRequest (store : SessionStore) (page limit : Nat) : HttpRequest :=
  ⟨apiUrl ++ "/api/employee/my-attendance?page=" ++ toString page
     ++ "&limit=" ++ toString limit, "GET",
   some (bearerValue store.token), none, RequestBody.empty⟩

/-- The request sent by ApiService.registerEmployee. -/
def registerRequest (store : SessionStore) (e : EmployeeData) (imageUri : String) :
    HttpRequest :=
  ⟨apiUrl ++ "/api/admin/register-employee", "POST",
   some (bearerValue store.token), none,
   RequestBody.multipart (registerForm e imageUri)⟩

instance {ε α : Type} [DecidableEq ε] [DecidableEq α] : DecidableEq (Except ε α) :=
  fun x y =>
    match x, y with
    | Except.ok a, Except.ok b =>
      if h : a = b then Decidable.isTrue (by rw [h])
      else Decidable.isFalse (by intro hc; cases hc; exact h rfl)
    | Except.error a, Except.error b =>
      if h : a = b then Decidable.isTrue (by rw [h])
      else Decidable.isFalse (by intro hc; cases hc; exact h rfl)
    | Except.ok _, Except.error _ => Decidable.isFalse (by intro hc; cases hc)
    | Except.error _, Except.ok _ => Decidable.isFalse (by intro hc; cases hc)

/-- Result of running one ApiService call against a given server
response: the value returned or the message of the thrown Error, the
requests issued over the network, and the session store afterwards. -/
structure ApiRun where
  outcome : Except String HttpResponse
  requests : List HttpRequest
  store : SessionStore
deriving DecidableEq

/-- Running ApiService.checkIn: the request is sent unconditionally
(there is no token check before fetch); a non-ok response throws
data.detail or the fixed fallback; the store is never written. -/
def checkInRun (store : SessionStore) (latitude longitude imageUri : String)
    (resp : HttpResponse) : ApiRun :=
  let req := checkInRequest store latitude longitude imageUri
  if resp.ok then ⟨Except.ok resp, [req], store⟩
  else ⟨Except.error (jsOrDetail resp.detail "Check-in failed"), [req], store⟩

/-- Running ApiService.checkOut. -/
def checkOutRun (store : SessionStore) (latitude longitude imageUri : String)
    (resp : HttpResponse) : ApiRun :=
  let req := checkOutRequest store latitude longitude imageUri
  if resp.ok then ⟨Except.ok resp, [req], store⟩
  else ⟨Except.error (jsOrDetail resp.detail "Check-out failed"), [req], store⟩

/-- Running ApiService.getStatus: non-ok responses throw a fixed message
ignoring the response body. -/
def getStatusRun (store : SessionStore) (resp : HttpResponse) : ApiRun :=
  let req := getStatusRequest store
  if resp.ok then ⟨Except.ok resp, [req], store⟩
  else ⟨Except.error "Failed to fetch status", [req], store⟩

/-- Running ApiService.getMyAttendance. -/
def getMyAttendanceRun (store : SessionStore) (page limit : Nat)
    (resp : HttpResponse) : ApiRun :=
  let req := getMyAttendanceRequest store page limit
  if resp.ok then ⟨Except.ok resp, [req], store⟩
  else ⟨Except.error "Failed to fetch attendance", [req], store⟩

/-- Running ApiService.registerEmployee: the whole body is wrapped in a
try/catch that rethrows with a prefixed message. -/
def registerEmployeeRun (store : SessionStore) (e : EmployeeData) (imageUri : String)
    (resp : HttpResponse) : ApiRun :=
  let req := registerRequest store e imageUri
  if resp.ok then ⟨Except.ok resp, [req], store⟩
  else ⟨Except.error ("Failed to register employee: "
          ++ jsOrDetail resp.detail "Registration failed"), [req], store⟩

/-- Coordinates handed to the attendance calls; they are only ever
appended to FormData, so they are kept as the strings that end up in the
form. -/
structure Coords where
  latitude : String
  longitude : String
deriving DecidableEq

/-- Outcome surfaced by the screen-level attendance handlers: the
success alert, or the failure alert with the caught message. -/
inductive AttemptOutcome where
  | success
  | failed (message : String)
deriving DecidableEq

/-- The message of the Error thrown by handleCheckIn and handleCheckOut
when the location permission status is not granted. -/
def permissionError : String := "Location permission is required for attendance"

/-- EmployeeHomeScreen.handleCheckIn: request location permission; a
status other than granted throws before any network call; otherwise
acquire the position (modelled as an Except since getCurrentPositionAsync
can reject), call ApiService.checkIn, and on success re-fetch the status
via ApiService.getStatus (loadStatus). -/
def handleCheckIn (store : SessionStore) (perm : String) (loc : Except String Coords)
    (imageUri : String) (resp statusResp : HttpResponse) :
    AttemptOutcome × List HttpRequest :=
  if perm ≠ "granted" then
    (AttemptOutcome.failed permissionError, [])
  else
    match loc with
    | Except.error e => (AttemptOutcome.failed e, [])
    | Except.ok c =>
      let run := checkInRun store c.latitude c.longitude imageUri resp
      match run.outcome with
      | Except.error msg => (AttemptOutcome.failed msg, run.requests)
      | Except.ok _ =>
        let statusRun := getStatusRun store statusResp
        (AttemptOutcome.success, run.requests ++ statusRun.requests)

/-- EmployeeHomeScreen.handleCheckOut: identical shape, calling
ApiService.checkOut. -/
def handleCheckOut (store : SessionStore) (perm : String) (loc : Except String Coords)
    (imageUri : String) (resp statusResp : HttpResponse) :
    AttemptOutcome × List HttpRequest :=
  if perm ≠ "granted" then
    (AttemptOutcome.failed permissionError, [])
  else
    match loc with
    | Except.error e => (AttemptOutcome.failed e, [])
    | Except.ok c =>
      let run := checkOutRun store c.latitude c.longitude imageUri resp
      match run.outcome with
      | Except.error msg => (AttemptOutcome.failed msg, run.requests)
      | Except.ok _ =>
        let statusRun := getStatusRun store statusResp
        (AttemptOutcome.success, run.requests ++ statusRun.requests)

/-- The attendance status the home screen fetches from the server. -/
structure AttendanceStatus where
  checked_in : Bool
  checked_out : Bool
  status : String
deriving DecidableEq

/-- Which handler a completed capture is routed to. -/
inductive CaptureTarget where
  | toCheckIn
  | toCheckOut
deriving DecidableEq

/-- The onCapture wiring of EmployeeHomeScreen: the conditional
status?.checked_in ? handleCheckOut : handleCheckIn, where the optional
chain on a null status is falsy. -/
def captureDispatch (status : Option AttendanceStatus) : CaptureTarget :=
  match status with
  | some s => if s.checked_in then CaptureTarget.toCheckOut else CaptureTarget.toCheckIn
  | none => CaptureTarget.toCheckIn

/-- The pagination object of a list response, as read by the history
screen: pagination.page, pagination.pages, pagination.total. -/
structure Pagination where
  page : Nat
  pages : Nat
  total : Nat
deriving DecidableEq

/-- One page of a paginated list response: data.records and
data.pagination. -/
structure FetchResult (R : Type) where
  records : List R
  pagination : Pagination
deriving DecidableEq

/-- The state of EmployeeHistoryScreen: records, pagination, loading,
refreshing, page. -/
structure HistoryState (R : Type) where
  records : List R
  pagination : Option Pagination
  loading : Bool
  refreshing : Bool
  page : Nat
deriving DecidableEq

/-- loadRecords with an explicit page argument, to model the stale
closure in onRefresh: setRecords(data.records) replaces the record list
with the fetched page, setPagination stores its cursor, and the finally
block clears both spinners. The server is a function from page number to
the page it returns. -/
def loadRecordsAt {R : Type} (s : HistoryState R) (p : Nat)
    (server : Nat → FetchResult R) : HistoryState R :=
  let data := server p
  { s with records := data.records, pagination := some data.pagination,
           loading := false, refreshing := false }

/-- EmployeeHistoryScreen.loadRecords: fetch the current page. -/
def loadRecords {R : Type} (s : HistoryState R) (server : Nat → FetchResult R) :
    HistoryState R :=
  loadRecordsAt s s.page server

/-- EmployeeHistoryScreen.loadMore followed by the effect on page: when
pagination is loaded and page is below pagination.pages, setPage(page+1)
fires the effect, which runs loadRecords at the new page; otherwise
nothing happens. -/
def loadMoreEvent {R : Type} (s : HistoryState R) (server : Nat → FetchResult R) :
    HistoryState R :=
  match s.pagination with
  | none => s
  | some p =>
    if s.page < p.pages then
      loadRecords { s with page := s.page + 1 } server
    else s

/-- Which of the two concurrent fetches started by onRefresh has its
response processed last on the event loop (the last processed one wins
setRecords). The program does not order the two responses. -/
inductive RefreshOrder where
  | staleFirst
  | pageOneFirst
deriving DecidableEq

/-- EmployeeHistoryScreen.onRefresh and its aftermath:
setRefreshing(true) and setPage(1) are scheduled, then loadRecords runs
with the stale closure page, starting a fetch of the old page; if the
page actually changed, the effect on page starts a second, concurrent
fetch of page 1. Each response, when processed, replaces records and
pagination; the single-threaded event loop may process the two responses
in either order, so the quiescent state is parameterized by that order.
When the old page already was 1 only the single stale fetch (of page 1)
exists. -/
def onRefreshRace {R : Type} (s : HistoryState R) (server : Nat → FetchResult R)
    (ord : RefreshOrder) : HistoryState R :=
  let s0 : HistoryState R := { s with refreshing := true, page := 1 }
  if s.page = 1 then
    loadRecordsAt s0 s.page server
  else
    match ord with
    | RefreshOrder.staleFirst => loadRecordsAt (loadRecordsAt s0 s.page server) 1 server
    | RefreshOrder.pageOneFirst => loadRecordsAt (loadRecordsAt s0 1 server) s.page server

/-- The character class A-Z of the first regex in validatePassword. -/
def isUpperAZ (c : Char) : Bool := 65 ≤ c.toNat && c.toNat ≤ 90

/-- The character class a-z of the second regex in validatePassword. -/
def isLowerAZ (c : Char) : Bool := 97 ≤ c.toNat && c.toNat ≤ 122

/-- The character class 0-9 of the third regex in validatePassword. -/
def isDigit09 (c : Char) : Bool := 48 ≤ c.toNat && c.toNat ≤ 57

/-- AdminRegisterScreen.validatePassword: the first failed check returns
its message, a valid password returns null. -/
def validatePassword (pwd : String) : Option String :=
  if pwd.length < 8 then some "Password must be at least 8 characters"
  else if !(pwd.data.any isUpperAZ) then some "Password must contain uppercase letter"
  else if !(pwd.data.any isLowerAZ) then some "Password must contain lowercase letter"
  else if !(pwd.data.any isDigit09) then some "Password must contain a digit"
  else none

/-- Outcome surfaced by AdminRegisterScreen.handleRegister: the success
alert, a local validation alert (with its title), or the failure alert
with the caught message. -/
inductive RegisterOutcome where
  | success
  | validationAlert (title message : String)
  | failed (message : String)
deriving DecidableEq

/-- JS truthiness of a string: the empty string is falsy. -/
def jsTruthyString (s : String) : Bool := !(s = "")

/-- JS truthiness of a possibly-null string state value. -/
def jsTruthyOptString : Option String → Bool
  | some s => !(s = "")
  | none => false

/-- The form state of AdminRegisterScreen. -/
structure RegisterFormState where
  employeeId : String
  name : String
  email : String
  password : String
  role : String
  capturedImage : Option String
deriving DecidableEq

/-- AdminRegisterScreen.handleRegister: the required-fields guard (any
falsy field, including a missing captured image, alerts and returns),
then validatePassword, then ApiService.registerEmployee. -/
def handleRegister (store : SessionStore) (f : RegisterFormState)
    (resp : HttpResponse) : RegisterOutcome × List HttpRequest :=
  if !(jsTruthyString f.employeeId) || !(jsTruthyString f.name)
      || !(jsTruthyString f.email) || !(jsTruthyString f.password)
      || !(jsTruthyOptString f.capturedImage) then
    (RegisterOutcome.validationAlert "Error"
       "Please fill all fields and capture face image", [])
  else
    match validatePassword f.password with
    | some err => (RegisterOutcome.validationAlert "Invalid Password" err, [])
    | none =>
      let run := registerEmployeeRun store
        ⟨f.employeeId, f.name, f.email, f.password, f.role⟩
        (f.capturedImage.getD "") resp
      match run.outcome with
      | Except.error msg => (RegisterOutcome.failed msg, run.requests)
      | Except.ok _ => (RegisterOutcome.success, run.requests)

/-- Whether a FormData body carries the base64 text field. -/
def hasBase64Field (parts : List FormPart) : Bool :=
  parts.any fun p => match p with
    | FormPart.textField f _ => f = "face_image_base64"
    | _ => false

/-- Whether a FormData body carries the face image file part. -/
def hasFaceFilePart (parts : List FormPart) : Bool :=
  parts.any fun p => match p with
    | FormPart.filePart f _ _ _ => f = "face_image"
    | _ => false

/-- A session store with no stored token. -/
def noTokenStore : SessionStore := ⟨none, none⟩

/-- A session store holding a token and an identity. -/
def sessionWithToken : SessionStore := ⟨some "tok123", some "user-1"⟩

/-- A successful server response. -/
def okResponse : HttpResponse := ⟨true, 200, none⟩

/-- An unauthorized server response carrying a detail message. -/
def resp401 : HttpResponse := ⟨false, 401, some "Token expired"⟩

/-- A two-page server for the history screen: page 1 holds record 10,
page 2 holds record 20. -/
def demoServer : Nat → FetchResult Nat := fun p =>
  if p = 1 then ⟨[10], ⟨1, 2, 2⟩⟩
  else if p = 2 then ⟨[20], ⟨2, 2, 2⟩⟩
  else ⟨[], ⟨p, 2, 2⟩⟩

/-- The history screen state after loading page 1 from demoServer. -/
def historyAfterPage1 : HistoryState Nat := ⟨[10], some ⟨1, 2, 2⟩, false, false, 1⟩

/-- The history screen state after scrolling to page 2 of demoServer. -/
def historyAfterPage2 : HistoryState Nat := ⟨[20], some ⟨2, 2, 2⟩, false, false, 2⟩

/-- A register form whose fields are filled but whose captured image is
missing. -/
def emptyImageForm : RegisterFormState :=
  ⟨"E1", "Ada", "ada@example.com", "Valid1Pass", "employee", none⟩

/-- Claim C2 (confirmed): for every submission carrying a captured image
(check-in and check-out share attendanceForm, registration uses
registerForm), a reference starting with the base64 data-URI marker
yields the face_image_base64 text field and no file part, any other
reference yields the face_image file part (face.jpg, image/jpeg) and no
base64 field; exactly one of the two representations is present. -/
theorem capture_payload_mutual_exclusion (lat lon imageUri : String) (e : EmployeeData) :
    hasBase64Field (attendanceForm lat lon imageUri) = imageUri.startsWith "data:image/"
    ∧ hasFaceFilePart (attendanceForm lat lon imageUri)
        = !(imageUri.startsWith "data:image/")
    ∧ hasBase64Field (registerForm e imageUri) = imageUri.startsWith "data:image/"
    ∧ hasFaceFilePart (registerForm e imageUri) = !(imageUri.startsWith "data:image/")
    ∧ (if imageUri.startsWith "data:image/" then
        FormPart.textField "face_image_base64" imageUri ∈ attendanceForm lat lon imageUri
          ∧ FormPart.textField "face_image_base64" imageUri ∈ registerForm e imageUri
      else
        FormPart.filePart "face_image" imageUri "image/jpeg" "face.jpg"
            ∈ attendanceForm lat lon imageUri
          ∧ FormPart.filePart "face_image" imageUri "image/jpeg" "face.jpg"
            ∈ registerForm e imageUri) := by
  by_cases h : imageUri.startsWith "data:image/" <;>
    simp [attendanceForm, registerForm, hasBase64Field, hasFaceFilePart, h]

/-- Claim C7 (confirmed): validatePassword accepts a password exactly
when its length is at least 8 and it contains an uppercase letter, a
lowercase letter and a digit, and behaves as stated on the five listed
examples. -/
theorem validate_password_characterization :
    (∀ pwd : String, validatePassword pwd = none ↔
        (8 ≤ pwd.length ∧ pwd.data.any isUpperAZ = true
          ∧ pwd.data.any isLowerAZ = true ∧ pwd.data.any isDigit09 = true))
    ∧ validatePassword "abc" = some "Password must be at least 8 characters"
    ∧ validatePassword "alllowercase1" = some "Password must contain uppercase letter"
    ∧ validatePassword "ALLUPPERCASE1" = some "Password must contain lowercase letter"
    ∧ validatePassword "NoDigitsHere" = some "Password must contain a digit"
    ∧ validatePassword "Valid1Pass" = none := by
  refine ⟨?_, by decide, by decide, by decide, by decide, by decide⟩
  intro pwd
  constructor
  · intro h
    unfold validatePassword at h
    by_cases h1 : pwd.length < 8
    · rw [if_pos h1] at h; exact Option.noConfusion h
    · rw [if_neg h1] at h
      by_cases h2 : (!pwd.data.any isUpperAZ) = true
      · rw [if_pos h2] at h; exact Option.noConfusion h
      · rw [if_neg h2] at h
        by_cases h3 : (!pwd.data.any isLowerAZ) = true
        · rw [if_pos h3] at h; exact Option.noConfusion h
        · rw [if_neg h3] at h
          by_cases h4 : (!pwd.data.any isDigit09) = true
          · rw [if_pos h4] at h; exact Option.noConfusion h
          · exact ⟨by omega, by simpa using h2, by simpa using h3, by simpa using h4⟩
  · rintro ⟨hl, hu, hlo, hd⟩
    unfold validatePassword
    rw [if_neg (by omega), if_neg (by simp [hu]), if_neg (by simp [hlo]),
        if_neg (by simp [hd])]

/-- Claim C1 counterexample: with no token in the session store, running
ApiService.checkIn against a 200 response still issues the HTTP request
(carrying the literal header Bearer null) and even succeeds; there is no
fail-fast auth-required error and network I/O does occur. -/
theorem checkin_sends_request_without_token :
    (checkInRun noTokenStore "6.5244" "3.3792" "file:///tmp/face.jpg" okResponse).requests
        ≠ []
    ∧ (checkInRun noTokenStore "6.5244" "3.3792" "file:///tmp/face.jpg" okResponse).outcome
        = Except.ok okResponse
    ∧ noTokenStore.token = none := by
  refine ⟨?_, rfl, rfl⟩
  simp [checkInRun, okResponse]

/-- Claim C1 (amended): the authenticated operations perform no token
check at all; each one unconditionally issues exactly its HTTP request,
and when no token is stored the request carries the malformed header
Bearer null instead of failing fast. -/
theorem authenticated_calls_always_send_request (store : SessionStore)
    (lat lon imageUri : String) (resp statusResp : HttpResponse)
    (page limit : Nat) (e : EmployeeData) :
    (checkInRun store lat lon imageUri resp).requests
        = [checkInRequest store lat lon imageUri]
    ∧ (checkOutRun store lat lon imageUri resp).requests
        = [checkOutRequest store lat lon imageUri]
    ∧ (getStatusRun store statusResp).requests = [getStatusRequest store]
    ∧ (getMyAttendanceRun store page limit resp).requests
        = [getMyAttendanceRequest store page limit]
    ∧ (registerEmployeeRun store e imageUri resp).requests
        = [registerRequest store e imageUri]
    ∧ (store.token = none →
        (checkInRequest store lat lon imageUri).authHeader = some "Bearer null") := by
  refine ⟨?_, ?_, ?_, ?_, ?_, ?_⟩
  · unfold checkInRun; split <;> rfl
  · unfold checkOutRun; split <;> rfl
  · unfold getStatusRun; split <;> rfl
  · unfold getMyAttendanceRun; split <;> rfl
  · unfold registerEmployeeRun; split <;> rfl
  · intro h; simp [checkInRequest, bearerValue, jsInterp, h]

/-- Witness for the amended C1 theorem at a concrete tokenless store. -/
theorem authenticated_calls_always_send_request_witness :
    (checkInRequest noTokenStore "1" "2" "file:///f.jpg").authHeader
      = some "Bearer null" :=
  (authenticated_calls_always_send_request noTokenStore "1" "2" "file:///f.jpg"
    okResponse okResponse 1 30 ⟨"E1", "Ada", "ada@example.com", "Valid1Pass",
      "employee"⟩).2.2.2.2.2 rfl

/-- Claim C5 counterexample: with no stored token the Authorization
header is not omitted; it is sent with the malformed literal value
Bearer null. -/
theorem header_not_omitted_without_token :
    (getStatusRequest noTokenStore).authHeader = some "Bearer null"
    ∧ (getStatusRequest noTokenStore).authHeader ≠ none := by
  exact ⟨rfl, by simp [getStatusRequest]⟩

/-- Claim C5 (amended): every request builder always sets the
Authorization header to the value Bearer followed by the interpolated
token: Bearer token when one is stored, and the literal Bearer null when
none is stored (the header is never omitted). -/
theorem bearer_header_always_present (store : SessionStore)
    (lat lon imageUri : String) (page limit : Nat) (e : EmployeeData) :
    (checkInRequest store lat lon imageUri).authHeader = some (bearerValue store.token)
    ∧ (checkOutRequest store lat lon imageUri).authHeader = some (bearerValue store.token)
    ∧ (getStatusRequest store).authHeader = some (bearerValue store.token)
    ∧ (getMyAttendanceRequest store page limit).authHeader
        = some (bearerValue store.token)
    ∧ (registerRequest store e imageUri).authHeader = some (bearerValue store.token)
    ∧ (∀ t, store.token = some t → bearerValue store.token = "Bearer " ++ t)
    ∧ (store.token = none → bearerValue store.token = "Bearer null") := by
  refine ⟨rfl, rfl, rfl, rfl, rfl, ?_, ?_⟩
  · intro t h; simp [bearerValue, jsInterp, h]
  · intro h; simp [bearerValue, jsInterp, h]

/-- Witness for the amended C5 theorem at a concrete store holding a
token. -/
theorem bearer_header_always_present_witness :
    bearerValue sessionWithToken.token = "Bearer " ++ "tok123" :=
  (bearer_header_always_present sessionWithToken "1" "2" "file:///f.jpg" 1 30
    ⟨"E1", "Ada", "ada@example.com", "Valid1Pass", "employee"⟩).2.2.2.2.2.1
    "tok123" rfl

/-- Claim C3 counterexample: a 401 response on ApiService.getStatus
leaves the persisted session untouched (the token is still stored
afterwards) and surfaces only the generic fixed message, not a distinct
auth-expired condition. -/
theorem status_401_keeps_session :
    (getStatusRun sessionWithToken resp401).store = sessionWithToken
    ∧ (getStatusRun sessionWithToken resp401).store.token = some "tok123"
    ∧ (getStatusRun sessionWithToken resp401).outcome
        = Except.error "Failed to fetch status" := by
  refine ⟨?_, rfl, ?_⟩ <;> simp [getStatusRun, getStatusRequest, resp401]

/-- Claim C3 (amended): a 401 response on an authenticated call is
handled like any other non-2xx response: the session store is left
unchanged and the surfaced error is the parsed detail or the generic
fallback of that call; no session clearing and no distinct auth-expired
condition exist. -/
theorem auth_401_generic_failure (store : SessionStore) (lat lon imageUri : String)
    (resp : HttpResponse) (hok : resp.ok = false) (_h401 : resp.status = 401) :
    (checkInRun store lat lon imageUri resp).store = store
    ∧ (checkInRun store lat lon imageUri resp).outcome
        = Except.error (jsOrDetail resp.detail "Check-in failed")
    ∧ (checkOutRun store lat lon imageUri resp).store = store
    ∧ (checkOutRun store lat lon imageUri resp).outcome
        = Except.error (jsOrDetail resp.detail "Check-out failed")
    ∧ (getStatusRun store resp).store = store
    ∧ (getStatusRun store resp).outcome = Except.error "Failed to fetch status" := by
  refine ⟨?_, ?_, ?_, ?_, ?_, ?_⟩ <;>
    simp [checkInRun, checkOutRun, getStatusRun, hok]

/-- Witness for the amended C3 theorem at a concrete 401 response. -/
theorem auth_401_generic_failure_witness :
    (checkInRun sessionWithToken "1" "2" "file:///f.jpg" resp401).outcome
      = Except.error (jsOrDetail resp401.detail "Check-in failed") :=
  (auth_401_generic_failure sessionWithToken "1" "2" "file:///f.jpg" resp401
    rfl rfl).2.1

/-- Claim C8 (confirmed): when the location permission request does not
return granted, both attendance handlers end in the failed outcome with
the permission message and issue no network request at all. -/
theorem permission_denied_no_network (store : SessionStore) (perm : String)
    (loc : Except String Coords) (imageUri : String) (resp statusResp : HttpResponse)
    (h : perm ≠ "granted") :
    handleCheckIn store perm loc imageUri resp statusResp
      = (AttemptOutcome.failed permissionError, [])
    ∧ handleCheckOut store perm loc imageUri resp statusResp
      = (AttemptOutcome.failed permissionError, []) := by
  constructor <;> simp [handleCheckIn, handleCheckOut, h]

/-- Witness for the C8 theorem at a concrete denied permission. -/
theorem permission_denied_no_network_witness :
    handleCheckIn sessionWithToken "denied" (Except.error "unavailable")
        "file:///f.jpg" okResponse okResponse
      = (AttemptOutcome.failed permissionError, []) :=
  (permission_denied_no_network sessionWithToken "denied" (Except.error "unavailable")
    "file:///f.jpg" okResponse okResponse (by decide)).1

/-- Every request a run of handleCheckIn issues goes to the check-in
endpoint or the status endpoint. -/
theorem handleCheckIn_request_urls (store : SessionStore) (perm : String)
    (loc : Except String Coords) (imageUri : String) (resp statusResp : HttpResponse) :
    ∀ req ∈ (handleCheckIn store perm loc imageUri resp statusResp).2,
      req.url = apiUrl ++ "/api/attendance/check-in"
        ∨ req.url = apiUrl ++ "/api/employee/status" := by
  intro req hreq
  by_cases hp : perm ≠ "granted"
  · simp [handleCheckIn, hp] at hreq
  · cases loc with
    | error e => simp [handleCheckIn, hp] at hreq
    | ok c =>
      cases hok : resp.ok
      · simp [handleCheckIn, hp, checkInRun, hok] at hreq
        subst hreq
        simp [checkInRequest]
      · cases hsok : statusResp.ok <;>
          simp [handleCheckIn, hp, checkInRun, getStatusRun, hok, hsok] at hreq <;>
          rcases hreq with rfl | rfl <;>
          simp [checkInRequest, getStatusRequest]

/-- Every request a run of handleCheckOut issues goes to the check-out
endpoint or the status endpoint. -/
theorem handleCheckOut_request_urls (store : SessionStore) (perm : String)
    (loc : Except String Coords) (imageUri : String) (resp statusResp : HttpResponse) :
    ∀ req ∈ (handleCheckOut store perm loc imageUri resp statusResp).2,
      req.url = apiUrl ++ "/api/attendance/check-out"
        ∨ req.url = apiUrl ++ "/api/employee/status" := by
  intro req hreq
  by_cases hp : perm ≠ "granted"
  · simp [handleCheckOut, hp] at hreq
  · cases loc with
    | error e => simp [handleCheckOut, hp] at hreq
    | ok c =>
      cases hok : resp.ok
      · simp [handleCheckOut, hp, checkOutRun, hok] at hreq
        subst hreq
        simp [checkOutRequest]
      · cases hsok : statusResp.ok <;>
          simp [handleCheckOut, hp, checkOutRun, getStatusRun, hok, hsok] at hreq <;>
          rcases hreq with rfl | rfl <;>
          simp [checkOutRequest, getStatusRequest]

/-- Claim C10 (confirmed): the home screen routes a completed capture by
the fetched status: checked_in true goes to the check-out handler,
anything else (including a still-null status) goes to the check-in
handler; and the selected handler never touches the other attendance
endpoint, so one capture is never submitted to both. -/
theorem capture_routed_by_status :
    (∀ s : AttendanceStatus, s.checked_in = true →
        captureDispatch (some s) = CaptureTarget.toCheckOut)
    ∧ (∀ s : AttendanceStatus, s.checked_in = false →
        captureDispatch (some s) = CaptureTarget.toCheckIn)
    ∧ captureDispatch none = CaptureTarget.toCheckIn
    ∧ (∀ (store : SessionStore) (perm : String) (loc : Except String Coords)
        (imageUri : String) (resp statusResp : HttpResponse) (req : HttpRequest),
        req ∈ (handleCheckIn store perm loc imageUri resp statusResp).2 →
        req.url ≠ apiUrl ++ "/api/attendance/check-out")
    ∧ (∀ (store : SessionStore) (perm : String) (loc : Except String Coords)
        (imageUri : String) (resp statusResp : HttpResponse) (req : HttpRequest),
        req ∈ (handleCheckOut store perm loc imageUri resp statusResp).2 →
        req.url ≠ apiUrl ++ "/api/attendance/check-in") := by
  refine ⟨?_, ?_, rfl, ?_, ?_⟩
  · intro s h; simp [captureDispatch, h]
  · intro s h; simp [captureDispatch, h]
  · intro store perm loc imageUri resp statusResp req hreq
    rcases handleCheckIn_request_urls store perm loc imageUri resp statusResp req hreq
      with h | h <;> rw [h] <;> simp [apiUrl]
  · intro store perm loc imageUri resp statusResp req hreq
    rcases handleCheckOut_request_urls store perm loc imageUri resp statusResp req hreq
      with h | h <;> rw [h] <;> simp [apiUrl]

/-- Witness for the C10 theorem at concrete statuses. -/
theorem capture_routed_by_status_witness :
    captureDispatch (some ⟨true, false, "checked_in"⟩) = CaptureTarget.toCheckOut
    ∧ captureDispatch (some ⟨false, false, "pending"⟩) = CaptureTarget.toCheckIn :=
  ⟨capture_routed_by_status.1 ⟨true, false, "checked_in"⟩ rfl,
   capture_routed_by_status.2.1 ⟨false, false, "pending"⟩ rfl⟩

/-- Claim C4 counterexample: on the history screen state holding page 1
(record 10) of demoServer, the scroll-end event fetches page 2 and the
displayed records become exactly the records of page 2, not the
accumulated sequence: record 10 is discarded, so nothing is appended. -/
theorem load_more_replaces_not_appends :
    (loadMoreEvent historyAfterPage1 demoServer).records = [20]
    ∧ (loadMoreEvent historyAfterPage1 demoServer).records ≠ [10, 20]
    ∧ (loadMoreEvent historyAfterPage1 demoServer).page = 2 := by
  refine ⟨rfl, by decide, rfl⟩

/-- Claim C4 (amended): the scroll-end event on the history screen
fetches page+1 and replaces the displayed records with that page alone
(no accumulation), and once the current page has reached
pagination.pages the event is a no-op that changes nothing. -/
theorem load_more_guard_and_replace {R : Type} (s : HistoryState R)
    (server : Nat → FetchResult R) (p : Pagination) (hp : s.pagination = some p) :
    (s.page < p.pages →
        (loadMoreEvent s server).records = (server (s.page + 1)).records
        ∧ (loadMoreEvent s server).page = s.page + 1
        ∧ (loadMoreEvent s server).pagination = some (server (s.page + 1)).pagination)
    ∧ (p.pages ≤ s.page → loadMoreEvent s server = s) := by
  constructor
  · intro h
    simp [loadMoreEvent, hp, h, loadRecords, loadRecordsAt]
  · intro h
    have hnot : ¬ s.page < p.pages := Nat.not_lt.mpr h
    simp [loadMoreEvent, hp, hnot]

/-- Witness for the amended C4 theorem on the concrete two-page
server. -/
theorem load_more_guard_and_replace_witness :
    (loadMoreEvent historyAfterPage1 demoServer).page = historyAfterPage1.page + 1 :=
  ((load_more_guard_and_replace historyAfterPage1 demoServer ⟨1, 2, 2⟩ rfl).1
    (by decide)).2.1

/-- Claim C6 counterexample: refreshing from page 2 of demoServer starts
two concurrent fetches (stale page 2 and page 1); when the page-1
response is processed first and the stale page-2 response last, the
quiescent state has the cursor at page 1 but still displays the page-2
records, so the list is not replaced with the records of page 1. -/
theorem refresh_out_of_order_keeps_stale_records :
    (onRefreshRace historyAfterPage2 demoServer RefreshOrder.pageOneFirst).page = 1
    ∧ (onRefreshRace historyAfterPage2 demoServer RefreshOrder.pageOneFirst).records
        = [20]
    ∧ (onRefreshRace historyAfterPage2 demoServer RefreshOrder.pageOneFirst).records
        ≠ (demoServer 1).records := by
  refine ⟨rfl, rfl, by decide⟩

/-- Claim C6 (amended): pull-to-refresh always resets the page cursor to
1, and the displayed records are fully replaced with the records of
page 1 whenever the prior page already was 1 (only one fetch exists) or
the two concurrent responses are processed in the order the fetches were
issued; when the prior page was greater than 1 an out-of-order
completion instead leaves the prior page's records displayed. -/
theorem refresh_cursor_reset_and_replace {R : Type} (s : HistoryState R)
    (server : Nat → FetchResult R) :
    (∀ ord : RefreshOrder, (onRefreshRace s server ord).page = 1)
    ∧ (s.page = 1 → ∀ ord : RefreshOrder,
        (onRefreshRace s server ord).records = (server 1).records
        ∧ (onRefreshRace s server ord).pagination = some (server 1).pagination)
    ∧ (onRefreshRace s server RefreshOrder.staleFirst).records = (server 1).records
    ∧ (onRefreshRace s server RefreshOrder.staleFirst).pagination
        = some (server 1).pagination
    ∧ (s.page ≠ 1 →
        (onRefreshRace s server RefreshOrder.pageOneFirst).records
          = (server s.page).records) := by
  refine ⟨?_, ?_, ?_, ?_, ?_⟩
  · intro ord
    by_cases h : s.page = 1 <;> cases ord <;>
      simp [onRefreshRace, loadRecordsAt, h]
  · intro h ord
    cases ord <;> simp [onRefreshRace, loadRecordsAt, h]
  · by_cases h : s.page = 1 <;> simp [onRefreshRace, loadRecordsAt, h]
  · by_cases h : s.page = 1 <;> simp [onRefreshRace, loadRecordsAt, h]
  · intro h
    simp [onRefreshRace, loadRecordsAt, h]

/-- Witness for the amended C6 theorem at a state already on page 1. -/
theorem refresh_cursor_reset_and_replace_witness :
    (onRefreshRace historyAfterPage1 demoServer RefreshOrder.pageOneFirst).records
      = (demoServer 1).records :=
  ((refresh_cursor_reset_and_replace historyAfterPage1 demoServer).2.1 rfl
    RefreshOrder.pageOneFirst).1

/-- Claim C9 counterexample: ApiService.checkIn performs no local image
validation: called with the empty image reference it still issues its
request, whose multipart body carries a face_image file part with an
empty uri (the empty string does not start with the data-URI marker, so
the file branch is taken). -/
theorem empty_uri_still_sent :
    (checkInRun sessionWithToken "6.5244" "3.3792" "" okResponse).requests
        = [checkInRequest sessionWithToken "6.5244" "3.3792" ""]
    ∧ (checkInRun sessionWithToken "6.5244" "3.3792" "" okResponse).requests ≠ []
    ∧ FormPart.filePart "face_image" "" "image/jpeg" "face.jpg"
        ∈ attendanceForm "6.5244" "3.3792" ""
    ∧ hasBase64Field (attendanceForm "6.5244" "3.3792" "") = false := by
  refine ⟨?_, ?_, ?_, ?_⟩ <;> decide

/-- Claim C9 (amended): the attendance calls perform no local image-URI
validation: an empty reference is transmitted as a file part with empty
uri and the request is always sent; only the registration screen rejects
a missing or empty captured image, through its required-fields guard,
before any network call. -/
theorem no_local_uri_validation (store : SessionStore) (lat lon : String)
    (resp : HttpResponse) (f : RegisterFormState) :
    (checkInRun store lat lon "" resp).requests = [checkInRequest store lat lon ""]
    ∧ FormPart.filePart "face_image" "" "image/jpeg" "face.jpg"
        ∈ attendanceForm lat lon ""
    ∧ (f.capturedImage = none →
        handleRegister store f resp
          = (RegisterOutcome.validationAlert "Error"
              "Please fill all fields and capture face image", []))
    ∧ (f.capturedImage = some "" →
        handleRegister store f resp
          = (RegisterOutcome.validationAlert "Error"
              "Please fill all fields and capture face image", [])) := by
  refine ⟨?_, ?_, ?_, ?_⟩
  · unfold checkInRun; split <;> rfl
  · have h0 : ("".startsWith "data:image/") = false := by decide
    simp [attendanceForm, h0]
  · intro h; simp [handleRegister, jsTruthyOptString, h]
  · intro h; simp [handleRegister, jsTruthyOptString, h]

/-- Witness for the amended C9 theorem on a form missing its captured
image. -/
theorem no_local_uri_validation_witness :
    handleRegister sessionWithToken emptyImageForm okResponse
      = (RegisterOutcome.validationAlert "Error"
          "Please fill all fields and capture face image", []) :=
  (no_local_uri_validation sessionWithToken "1" "2" okResponse
    emptyImageForm).2.2.1 rfl

end ReactRecognize
